import Mathlib

/-!
Shallow embedding of the core decision and bookkeeping logic of the
`beta_trader_bot` pairs-trading repository, together with theorems checking
its natural-language specification against the code.

Sources embedded (translated from the Python source, value-passing style for
the mutable objects):
  * `src/strategies/risk_management.py`  — `RiskManager`
  * `src/strategies/pairs_trading.py`    — `PairsTradingStrategy.calculate_signals`
  * `src/trading/order_manager.py`       — `OrderStatus`, `Order`, `OrderManager`
  * `src/trading/position_manager.py`    — `Position`, `PositionManager`
  * `src/trading/execution_engine.py`    — `ExecutionEngine.execute_signal`
  * `src/utils/math_utils.py`            — `calculate_zscore`
  * `src/utils/helpers.py`               — `safe_divide`

Numeric values (prices, quantities, z-scores) are modelled as rationals,
except for the z-score statistics, which involve a square root and are
modelled over the reals. Timestamps come from the wall clock and are
irrelevant to every claim; they are omitted from the embedded records.
-/

namespace BetaTrader

/-- `safe_divide` from `src/utils/helpers.py`: returns `default` (0 unless
given) when the denominator is zero, the quotient otherwise. -/
def safe_divide (numerator denominator : ℚ) (default : ℚ := 0) : ℚ :=
  if denominator = 0 then default else numerator / denominator

/-- Configuration fields read by `RiskManager.__init__`
(`src/strategies/risk_management.py`). The Python constructor performs no
validation of these values; it only installs defaults for missing keys
(max_position 0.2, position_size 0.1, stop_loss_z 3.0). -/
structure RiskManager where
  max_position_size : ℚ := 1/5
  position_size : ℚ := 1/10
  stop_loss_z : ℚ := 3
deriving DecidableEq, Repr

/-- `RiskManager.calculate_position_size`: `base` models the optional
`base_position_size` argument (`None` ↦ the configured `position_size`);
returns `min(account_balance*size, account_balance*max_position_size)`. -/
def RiskManager.calculate_position_size (rm : RiskManager)
    (account_balance : ℚ) (base : Option ℚ := none) : ℚ :=
  let size := base.getD rm.position_size
  let position_amount := account_balance * size
  let max_amount := account_balance * rm.max_position_size
  min position_amount max_amount

/-- `RiskManager.check_stop_loss`: direction-aware stop-loss.
`entry_zscore > 0` (short-spread entry) triggers when
`current_zscore > stop_loss_z`; `entry_zscore < 0` triggers when
`current_zscore < -stop_loss_z`; `entry_zscore = 0` never triggers. -/
def RiskManager.check_stop_loss (rm : RiskManager)
    (current_zscore entry_zscore : ℚ) : Bool :=
  if entry_zscore > 0 then
    current_zscore > rm.stop_loss_z
  else if entry_zscore < 0 then
    current_zscore < -rm.stop_loss_z
  else
    false

/-- The position record `PairsTradingStrategy` stores in
`pair_states[pair]['position']` (written by `update_position`). -/
structure PositionRef where
  quantity1 : ℚ
  quantity2 : ℚ
  entry_zscore : ℚ
deriving DecidableEq, Repr

/-- The statistics fields of one pair's state, as written by
`PairsTradingStrategy._update_pair_state` from
`DataProcessor.calculate_pair_statistics`, together with the `position`
field (which `_update_pair_state` never touches). -/
structure PairState where
  hedge_ratio : ℚ := 1
  spread_mean : ℚ := 0
  spread_std : ℚ := 1
  correlation : ℚ := 0
  is_cointegrated : Bool := false
  current_zscore : ℚ := 0
  position : Option PositionRef := none
deriving DecidableEq, Repr

/-- The statistics dictionary produced for one cycle (the snapshot
`_update_pair_state` merges into the pair's state). -/
structure Snapshot where
  hedge_ratio : ℚ
  spread_mean : ℚ
  spread_std : ℚ
  correlation : ℚ
  is_cointegrated : Bool
  current_zscore : ℚ
deriving DecidableEq, Repr

/-- `PairsTradingStrategy._update_pair_state`: overwrites the statistics
fields from the freshly computed snapshot and leaves `position` alone. -/
def update_pair_state (st : PairState) (snap : Snapshot) : PairState :=
  { st with
    hedge_ratio := snap.hedge_ratio
    spread_mean := snap.spread_mean
    spread_std := snap.spread_std
    correlation := snap.correlation
    is_cointegrated := snap.is_cointegrated
    current_zscore := snap.current_zscore }

/-- Strategy thresholds read by `PairsTradingStrategy.__init__`. -/
structure StrategyConfig where
  z_entry_threshold : ℚ := 2
  z_exit_threshold : ℚ := 1/2
  correlation_threshold : ℚ := 4/5
  risk : RiskManager := {}
deriving DecidableEq, Repr

/-- The signal dictionary returned by `calculate_signals`
(the `metadata` sub-dictionary is echoed state and not modelled). -/
structure TradeSignal where
  signal : String
  quantity1 : ℚ
  quantity2 : ℚ
  zscore : ℚ
deriving DecidableEq, Repr

/-- The decision core of `PairsTradingStrategy.calculate_signals`
(lines 152–233), entered after data validation and alignment succeeded:
the pair's state is refreshed from the snapshot, then

  1. if `correlation < correlation_threshold` the function returns `hold`
     immediately (before the stored position is even consulted);
  2. with no stored position, `zscore > z_entry_threshold` gives
     `sell_spread` with quantities `(1, -hedge_ratio)` and
     `zscore < -z_entry_threshold` gives `buy_spread` with
     `(-1, hedge_ratio)`, else `hold`;
  3. with a stored position, the stop-loss check runs first, then (elif)
     the convergence exit `|zscore| < z_exit_threshold`; both produce
     `close` with the negated stored quantities, else `hold`.

The returned pair is (signal, updated pair state); the Python method
mutates only the statistics fields of the state, never `position`. -/
def calculate_signals (cfg : StrategyConfig) (st : PairState)
    (snap : Snapshot) : TradeSignal × PairState :=
  let st' := update_pair_state st snap
  let current_zscore := st'.current_zscore
  let correlation := st'.correlation
  if correlation < cfg.correlation_threshold then
    (⟨"hold", 0, 0, current_zscore⟩, st')
  else
    match st'.position with
    | none =>
      if current_zscore > cfg.z_entry_threshold then
        (⟨"sell_spread", 1, -st'.hedge_ratio, current_zscore⟩, st')
      else if current_zscore < -cfg.z_entry_threshold then
        (⟨"buy_spread", -1, st'.hedge_ratio, current_zscore⟩, st')
      else
        (⟨"hold", 0, 0, current_zscore⟩, st')
    | some pos =>
      if cfg.risk.check_stop_loss current_zscore pos.entry_zscore then
        (⟨"close", -pos.quantity1, -pos.quantity2, current_zscore⟩, st')
      else if |current_zscore| < cfg.z_exit_threshold then
        (⟨"close", -pos.quantity1, -pos.quantity2, current_zscore⟩, st')
      else
        (⟨"hold", 0, 0, current_zscore⟩, st')

/-- `OrderStatus` from `src/trading/order_manager.py`. -/
inductive OrderStatus where
  | PENDING
  | SUBMITTED
  | FILLED
  | PARTIALLY_FILLED
  | CANCELLED
  | REJECTED
deriving DecidableEq, Repr

/-- `Order` from `src/trading/order_manager.py` (the wall-clock `timestamp`
field is omitted; the limit prices `price1`/`price2` are `Option` as in the
constructor's defaults). `__init__` sets `status = PENDING`, exchange ids to
`None` and all filled quantities/prices to `0.0`. -/
structure Order where
  order_id : String
  pair_name : String
  asset1 : String
  asset2 : String
  side1 : String
  side2 : String
  quantity1 : ℚ
  quantity2 : ℚ
  price1 : Option ℚ := none
  price2 : Option ℚ := none
  order_type : String := "market"
  status : OrderStatus := .PENDING
  exchange_order_id1 : Option String := none
  exchange_order_id2 : Option String := none
  filled_quantity1 : ℚ := 0
  filled_quantity2 : ℚ := 0
  filled_price1 : ℚ := 0
  filled_price2 : ℚ := 0
deriving DecidableEq, Repr

/-- `Order.update_status`: unconditionally assigns the new status
(the Python method is a plain attribute write followed by a log line). -/
def Order.update_status (o : Order) (status : OrderStatus) : Order :=
  { o with status := status }

/-- `OrderManager` from `src/trading/order_manager.py`: the `orders` dict
keyed by order id, plus the private counter used to mint ids. -/
structure OrderManager where
  orders : List (String × Order) := []
  order_counter : ℕ := 0
deriving DecidableEq, Repr

/-- `OrderManager.create_order` (the wall-clock suffix of the generated id
is omitted: ids here are `"order_<counter>"`). Returns the updated manager
and the fresh `PENDING` order. -/
def OrderManager.create_order (om : OrderManager) (pair_name asset1 asset2
    side1 side2 : String) (quantity1 quantity2 : ℚ)
    (price1 price2 : Option ℚ := none) (order_type : String := "market") :
    OrderManager × Order :=
  let counter := om.order_counter + 1
  let order_id := "order_" ++ toString counter
  let order : Order :=
    { order_id := order_id, pair_name := pair_name,
      asset1 := asset1, asset2 := asset2, side1 := side1, side2 := side2,
      quantity1 := quantity1, quantity2 := quantity2,
      price1 := price1, price2 := price2, order_type := order_type }
  (⟨om.orders ++ [(order_id, order)], counter⟩, order)

/-- `Position` from `src/trading/position_manager.py` (wall-clock
timestamps omitted). `__init__` sets `exit_price1/2 = None`, `pnl = 0.0`
and `is_closed = False`. -/
structure Position where
  pair_name : String
  asset1 : String
  asset2 : String
  quantity1 : ℚ
  quantity2 : ℚ
  entry_zscore : ℚ
  entry_price1 : ℚ
  entry_price2 : ℚ
  exit_price1 : Option ℚ := none
  exit_price2 : Option ℚ := none
  pnl : ℚ := 0
  is_closed : Bool := false
deriving DecidableEq, Repr

/-- `Position.close`: records the exit prices, computes
`pnl = (exit1-entry1)*qty1 + (exit2-entry2)*qty2` and marks the position
closed. -/
def Position.close (p : Position) (exit_price1 exit_price2 : ℚ) : Position :=
  let pnl1 := (exit_price1 - p.entry_price1) * p.quantity1
  let pnl2 := (exit_price2 - p.entry_price2) * p.quantity2
  { p with
    exit_price1 := some exit_price1
    exit_price2 := some exit_price2
    pnl := pnl1 + pnl2
    is_closed := true }

/-- `PositionManager`: the `positions` dict keyed by pair name, modelled as
an association list with at most one entry per key (Python dict semantics:
assignment to an existing key overwrites in place). -/
structure PositionManager where
  positions : List (String × Position) := []
deriving DecidableEq, Repr

/-- Dict lookup `self.positions.get(pair_name)`. -/
def PositionManager.get_position (pm : PositionManager) (pair_name : String) :
    Option Position :=
  (pm.positions.find? (fun kv => kv.1 = pair_name)).map (·.2)

/-- Dict assignment `self.positions[pair_name] = p`: overwrite the existing
binding, or append a new one. -/
def setPosition (ps : List (String × Position)) (pair_name : String)
    (p : Position) : List (String × Position) :=
  match ps with
  | [] => [(pair_name, p)]
  | (k, v) :: rest =>
    if k = pair_name then (k, p) :: rest
    else (k, v) :: setPosition rest pair_name p

/-- `PositionManager.open_position`: if a non-closed position for
`pair_name` already exists, log a warning and return it unchanged (the
ledger is untouched); otherwise store and return a fresh `Position`. -/
def PositionManager.open_position (pm : PositionManager)
    (pair_name asset1 asset2 : String) (quantity1 quantity2 entry_zscore
    entry_price1 entry_price2 : ℚ) : PositionManager × Position :=
  match pm.get_position pair_name with
  | some existing =>
    if existing.is_closed = false then
      (pm, existing)
    else
      let p : Position :=
        { pair_name := pair_name, asset1 := asset1, asset2 := asset2,
          quantity1 := quantity1, quantity2 := quantity2,
          entry_zscore := entry_zscore,
          entry_price1 := entry_price1, entry_price2 := entry_price2 }
      (⟨setPosition pm.positions pair_name p⟩, p)
  | none =>
    let p : Position :=
      { pair_name := pair_name, asset1 := asset1, asset2 := asset2,
        quantity1 := quantity1, quantity2 := quantity2,
        entry_zscore := entry_zscore,
        entry_price1 := entry_price1, entry_price2 := entry_price2 }
    (⟨setPosition pm.positions pair_name p⟩, p)

/-- `PositionManager.close_position`: `None` when the pair was never
recorded; the already-closed position unchanged when it is closed; else
close it in place and return it. -/
def PositionManager.close_position (pm : PositionManager)
    (pair_name : String) (exit_price1 exit_price2 : ℚ) :
    PositionManager × Option Position :=
  match pm.get_position pair_name with
  | none => (pm, none)
  | some position =>
    if position.is_closed then
      (pm, some position)
    else
      let p := position.close exit_price1 exit_price2
      (⟨setPosition pm.positions pair_name p⟩, some p)

/-- The dictionary `ExchangeInterface.place_market_order` returns on
success (`None` on failure is modelled by `Option Fill`): the fields
`execute_signal` reads from it, each accessed with `.get` and a default,
hence `Option` here. -/
structure Fill where
  id : Option String := none
  filled : Option ℚ := none
  price : Option ℚ := none
deriving DecidableEq, Repr

/-- The result dictionary of `ExecutionEngine.execute_signal`: the success
payload carries the order id and both legs' filled quantities and prices;
the failure payload carries only the order id and an error string. -/
inductive ExecResult where
  | success (order_id : String)
      (filled_quantity1 filled_quantity2 filled_price1 filled_price2 : ℚ)
  | failure (order_id : String) (error : String)
deriving DecidableEq, Repr

/-- Dict assignment `self.orders[order_id] = o` (models the aliasing of the
mutable Python `Order` between `execute_signal` and the manager's dict). -/
def setOrder (os : List (String × Order)) (order_id : String) (o : Order) :
    List (String × Order) :=
  match os with
  | [] => [(order_id, o)]
  | (k, v) :: rest =>
    if k = order_id then (k, o) :: rest
    else (k, v) :: setOrder rest order_id o

/-- Dict lookup `OrderManager.get_order`. -/
def OrderManager.get_order (om : OrderManager) (order_id : String) :
    Option Order :=
  (om.orders.find? (fun kv => kv.1 = order_id)).map (·.2)

/-- The state owned by `ExecutionEngine` (`src/trading/execution_engine.py`);
the exchange connection is a collaborator whose responses are passed to
`execute_signal` as values. -/
structure ExecutionEngine where
  order_manager : OrderManager := {}
  position_manager : PositionManager := {}
  risk_manager : RiskManager := {}
deriving DecidableEq, Repr

/-- `ExecutionEngine.execute_signal` (lines 32–163). External effects enter
as values: `ticker1`/`ticker2` are `exchange.get_ticker(...)['last']`
(`none` models a falsy ticker), `order1_result`/`order2_result` the two
`place_market_order` responses; `asset1`/`asset2` model
`signal['metadata'].get('asset1'/'asset2')`. The `except` arm (an exchange
call raising) is not modelled: responses arrive as values here, and that arm
rejects the order exactly like the missing-fill arm. Control flow follows
the source: `hold` returns `None`; a missing ticker returns `None` with no
state change; opening signals are scaled down when their notional exceeds
the risk-approved size; both legs' results are recorded on the order
unconditionally and in order; only when both legs returned data is the
order `FILLED` and the position ledger touched, otherwise the order is
`REJECTED` and the failure dictionary is returned. -/
def ExecutionEngine.execute_signal (eng : ExecutionEngine)
    (signal : TradeSignal) (asset1 asset2 pair_name : String)
    (account_balance : ℚ) (ticker1 ticker2 : Option ℚ)
    (order1_result order2_result : Option Fill) :
    ExecutionEngine × Option ExecResult :=
  if signal.signal = "hold" then (eng, none)
  else
    match ticker1, ticker2 with
    | some price1, some price2 =>
      let adjusted : ℚ × ℚ :=
        if signal.signal = "buy_spread" ∨ signal.signal = "sell_spread" then
          let cost1 := |signal.quantity1| * price1
          let cost2 := |signal.quantity2| * price2
          let total_cost := cost1 + cost2
          let position_size :=
            eng.risk_manager.calculate_position_size account_balance
          if total_cost > position_size then
            let scale := safe_divide position_size total_cost
            (signal.quantity1 * scale, signal.quantity2 * scale)
          else (signal.quantity1, signal.quantity2)
        else (signal.quantity1, signal.quantity2)
      let quantity1 := adjusted.1
      let quantity2 := adjusted.2
      let side1 := if quantity1 > 0 then "buy" else "sell"
      let side2 := if quantity2 > 0 then "buy" else "sell"
      let created := eng.order_manager.create_order pair_name asset1 asset2
        side1 side2 |quantity1| |quantity2| none none "market"
      let om := created.1
      let order := created.2
      let order :=
        match order1_result with
        | some r =>
          { order with
            exchange_order_id1 := r.id
            filled_quantity1 := r.filled.getD |quantity1|
            filled_price1 := r.price.getD price1 }
        | none => order
      let order :=
        match order2_result with
        | some r =>
          { order with
            exchange_order_id2 := r.id
            filled_quantity2 := r.filled.getD |quantity2|
            filled_price2 := r.price.getD price2 }
        | none => order
      match order1_result, order2_result with
      | some _, some _ =>
        let order := order.update_status .FILLED
        let pm :=
          if signal.signal = "buy_spread" ∨ signal.signal = "sell_spread" then
            (eng.position_manager.open_position pair_name asset1 asset2
              quantity1 quantity2 signal.zscore
              order.filled_price1 order.filled_price2).1
          else if signal.signal = "close" then
            (eng.position_manager.close_position pair_name
              order.filled_price1 order.filled_price2).1
          else eng.position_manager
        ({ eng with
            order_manager := ⟨setOrder om.orders order.order_id order,
                              om.order_counter⟩
            position_manager := pm },
         some (.success order.order_id order.filled_quantity1
                order.filled_quantity2 order.filled_price1
                order.filled_price2))
      | _, _ =>
        let order := order.update_status .REJECTED
        ({ eng with
            order_manager := ⟨setOrder om.orders order.order_id order,
                              om.order_counter⟩ },
         some (.failure order.order_id "订单执行失败"))
    | _, _ => (eng, none)

/-- `np.mean`: sum over length (0/0 = 0 for the empty list, matching the
`len(series) == 0` guard in the caller which never reaches this). -/
noncomputable def npMean (l : List ℝ) : ℝ := l.sum / l.length

/-- `np.std` with the default `ddof=0`: the square root of the mean of the
squared deviations from the mean. -/
noncomputable def npStd (l : List ℝ) : ℝ :=
  Real.sqrt (npMean (l.map fun x => (x - npMean l) ^ 2))

open Classical in
/-- The full-series branch of `calculate_zscore`
(`src/utils/math_utils.py` lines 59–64): all zeros when the standard
deviation is zero, else `(x - mean)/std` elementwise. -/
noncomputable def zscoreFull (series : List ℝ) : List ℝ :=
  let mean := npMean series
  let std := npStd series
  if std = 0 then List.replicate series.length 0
  else series.map fun x => (x - mean) / std

open Classical in
/-- The rolling branch of `calculate_zscore` (lines 66–77): the output
starts as `np.zeros_like(series)` and, for each `i` in
`range(window, len(series))`, the point is standardized against the mean
and std of `series[i-window:i]`, staying 0 when that std is zero. -/
noncomputable def zscoreRolling (series : List ℝ) (window : ℕ) : List ℝ :=
  (List.range series.length).map fun i =>
    if i < window then 0
    else
      let window_data := (series.drop (i - window)).take window
      let mean := npMean window_data
      let std := npStd window_data
      if std = 0 then 0
      else (series.getD i 0 - mean) / std

/-- `calculate_zscore(series, window)` from `src/utils/math_utils.py`:
empty input gives an empty array; `window is None or window >= len(series)`
selects the full-series branch, otherwise the rolling branch. -/
noncomputable def calculate_zscore (series : List ℝ) (window : Option ℕ) :
    List ℝ :=
  if series.length = 0 then []
  else
    match window with
    | none => zscoreFull series
    | some w =>
      if series.length ≤ w then zscoreFull series
      else zscoreRolling series w

/-! Concrete sample data used by counterexamples and witnesses. All numeric
values are integer-valued rationals so that `decide` can evaluate them. -/

/-- A strategy configuration with integer thresholds: entry at |z| > 2,
exit at |z| < 1, correlation gate at 1, stop-loss at |z| beyond 3. -/
def cfgI : StrategyConfig :=
  { z_entry_threshold := 2, z_exit_threshold := 1, correlation_threshold := 1,
    risk := { max_position_size := 1, position_size := 1, stop_loss_z := 3 } }

/-- A stored short-spread position: 1 unit of asset1 against -2 of asset2,
entered at z = 2. -/
def posI : PositionRef := ⟨1, -2, 2⟩

/-- Pair state with the open position `posI`. -/
def stOpen : PairState := { position := some posI }

/-- Pair state with no position (FLAT). -/
def stFlat : PairState := {}

/-- Snapshot with correlation 0 (below the gate) and z = 4 (beyond the
stop-loss threshold 3 for a positive-entry position). -/
def snapLowCorr : Snapshot := ⟨2, 0, 1, 0, true, 4⟩

/-- The same snapshot with correlation 1 (at the gate, so it passes). -/
def snapHighCorr : Snapshot := ⟨2, 0, 1, 1, true, 4⟩

/-- Snapshot passing the gate with z = 3 > entry threshold 2. -/
def snapEntry : Snapshot := ⟨2, 0, 1, 1, true, 3⟩

end BetaTrader

open BetaTrader

/-- C1 counterexample: with the open position `posI` (entry z = 2) and a
current z-score of 4 that makes `check_stop_loss` trigger, the code returns
`hold` when correlation (0) is below the threshold (1), while the identical
situation with correlation at the threshold returns `close`: the correlation
gate suppresses the stop-loss evaluation of an already-open trade, so the
exit rules are NOT evaluated as they would be with correlation above the
threshold. -/
theorem C1_counterexample :
    (calculate_signals cfgI stOpen snapLowCorr).1.signal = "hold" ∧
    cfgI.risk.check_stop_loss snapLowCorr.current_zscore posI.entry_zscore
      = true ∧
    (calculate_signals cfgI stOpen snapHighCorr).1.signal = "close" := by
  decide

/-- C1 (amended): when `snapshot.correlation < correlation_threshold`,
`calculate_signals` returns `hold` with zero quantities for every state —
the gate blocks new entries and also suppresses the stop-loss and
convergence-exit evaluation of an open position; it never force-closes: the
stored position is left unchanged. -/
theorem C1_gate_blocks_all_signals (cfg : StrategyConfig) (st : PairState)
    (snap : Snapshot) (h : snap.correlation < cfg.correlation_threshold) :
    (calculate_signals cfg st snap).1
        = ⟨"hold", 0, 0, snap.current_zscore⟩ ∧
    (calculate_signals cfg st snap).2.position = st.position := by
  constructor <;> simp [calculate_signals, update_pair_state, h]

/-- C1 witness: the amended theorem at the concrete gate-blocked input. -/
theorem C1_gate_blocks_all_signals_witness :
    (calculate_signals cfgI stOpen snapLowCorr).1 = ⟨"hold", 0, 0, 4⟩ ∧
    (calculate_signals cfgI stOpen snapLowCorr).2.position = stOpen.position :=
  C1_gate_blocks_all_signals cfgI stOpen snapLowCorr (by decide)

/-- C3: with an open position and the correlation gate passed, the stop-loss
test runs first: if it triggers the signal is `close` with the negated
stored quantities; only if it does not trigger and `|z| < z_exit_threshold`
does the convergence exit produce the same `close`; otherwise the signal is
`hold` and the stored position is unchanged. -/
theorem C3_exit_precedence (cfg : StrategyConfig) (st : PairState)
    (snap : Snapshot) (pos : PositionRef)
    (hpos : st.position = some pos)
    (hcorr : ¬ snap.correlation < cfg.correlation_threshold) :
    (cfg.risk.check_stop_loss snap.current_zscore pos.entry_zscore = true →
      (calculate_signals cfg st snap).1
        = ⟨"close", -pos.quantity1, -pos.quantity2, snap.current_zscore⟩) ∧
    (cfg.risk.check_stop_loss snap.current_zscore pos.entry_zscore = false →
      |snap.current_zscore| < cfg.z_exit_threshold →
      (calculate_signals cfg st snap).1
        = ⟨"close", -pos.quantity1, -pos.quantity2, snap.current_zscore⟩) ∧
    (cfg.risk.check_stop_loss snap.current_zscore pos.entry_zscore = false →
      ¬ |snap.current_zscore| < cfg.z_exit_threshold →
      (calculate_signals cfg st snap).1 = ⟨"hold", 0, 0, snap.current_zscore⟩ ∧
      (calculate_signals cfg st snap).2.position = st.position) := by
  refine ⟨fun htrig => ?_, fun hns hconv => ?_, fun hns hnconv => ?_⟩ <;>
    simp [calculate_signals, update_pair_state, hpos, hcorr, *]

/-- C3 witness: the stop-loss arm at the concrete input (`posI` entered at
z = 2, current z = 4 beyond the stop-loss threshold 3, correlation gate
passed): `close` with the negated stored quantities. -/
theorem C3_exit_precedence_witness :
    (calculate_signals cfgI stOpen snapHighCorr).1 = ⟨"close", -1, 2, 4⟩ :=
  (C3_exit_precedence cfgI stOpen snapHighCorr posI rfl (by decide)).1
    (by decide)

/-- C6: in state FLAT with the correlation gate passed (and a positive entry
threshold, as the configuration contract requires): `z > z_entry_threshold`
gives `sell_spread` with quantities `(1, -hedge_ratio)`;
`z < -z_entry_threshold` gives `buy_spread` with `(-1, hedge_ratio)`;
otherwise `hold` with zero quantities. -/
theorem C6_flat_entry (cfg : StrategyConfig) (st : PairState)
    (snap : Snapshot)
    (hpos : st.position = none)
    (hcorr : ¬ snap.correlation < cfg.correlation_threshold)
    (hthr : 0 < cfg.z_entry_threshold) :
    (cfg.z_entry_threshold < snap.current_zscore →
      (calculate_signals cfg st snap).1
        = ⟨"sell_spread", 1, -snap.hedge_ratio, snap.current_zscore⟩) ∧
    (snap.current_zscore < -cfg.z_entry_threshold →
      (calculate_signals cfg st snap).1
        = ⟨"buy_spread", -1, snap.hedge_ratio, snap.current_zscore⟩) ∧
    (¬ cfg.z_entry_threshold < snap.current_zscore →
      ¬ snap.current_zscore < -cfg.z_entry_threshold →
      (calculate_signals cfg st snap).1
        = ⟨"hold", 0, 0, snap.current_zscore⟩) := by
  refine ⟨fun hsell => ?_, fun hbuy => ?_, fun h1 h2 => ?_⟩
  · simp [calculate_signals, update_pair_state, hpos, hcorr, hsell]
  · have hnsell : ¬ cfg.z_entry_threshold < snap.current_zscore := by
      intro hcon; linarith
    simp [calculate_signals, update_pair_state, hpos, hcorr, hnsell, hbuy]
  · simp [calculate_signals, update_pair_state, hpos, hcorr, h1, h2]

/-- C6 witness: the entry arm at the concrete input (FLAT, correlation at
the gate, z = 3 above the entry threshold 2, hedge ratio 2):
`sell_spread` with quantities `(1, -2)`. -/
theorem C6_flat_entry_witness :
    (calculate_signals cfgI stFlat snapEntry).1 = ⟨"sell_spread", 1, -2, 3⟩ :=
  (C6_flat_entry cfgI stFlat snapEntry rfl (by decide) (by decide)).1
    (by decide)

/-- A concrete pending order for the order-status claims. -/
def orderI : Order :=
  { order_id := "order_1", pair_name := "pair", asset1 := "a1",
    asset2 := "a2", side1 := "buy", side2 := "sell",
    quantity1 := 1, quantity2 := 2 }

/-- C4 counterexample: `Order.update_status` performs no monotonicity check —
an order whose status is the terminal `FILLED` is moved back to `PENDING` by
a subsequent `update_status` call, so status is not monotonic for every
sequence of `update_status` calls. -/
theorem C4_counterexample :
    ((orderI.update_status .FILLED).update_status .PENDING).status
      = OrderStatus.PENDING ∧
    OrderStatus.PENDING ≠ OrderStatus.FILLED := by
  decide

/-- C4 (amended): `Order.update_status` unconditionally overwrites the
status field with its argument; no transition restriction is enforced, so
terminal statuses are not sticky. (The engine's own call sites set each
order's status at most once after creation, but the method itself permits
any transition.) -/
theorem C4_update_status_overwrites (o : Order) (s : OrderStatus) :
    (o.update_status s).status = s := rfl

/-- A concrete open position stored in the ledger. -/
def posLedgerI : Position :=
  { pair_name := "pair", asset1 := "a1", asset2 := "a2",
    quantity1 := 1, quantity2 := -2, entry_zscore := 2,
    entry_price1 := 100, entry_price2 := 50 }

/-- A ledger holding the single open position `posLedgerI`. -/
def pmOpenI : PositionManager := ⟨[("pair", posLedgerI)]⟩

/-- C5: when a non-closed position for the pair already exists,
`open_position` returns the existing `Position` unchanged and leaves the
ledger exactly as it was, whatever quantities and prices the second call
carries — a second `open_position` without an intervening close is
idempotent, and since the ledger is keyed by pair name at most one
non-closed position per pair can exist. -/
theorem C5_open_position_refuses (pm : PositionManager)
    (pair_name asset1 asset2 : String)
    (quantity1 quantity2 entry_zscore entry_price1 entry_price2 : ℚ)
    (existing : Position)
    (hget : pm.get_position pair_name = some existing)
    (hopen : existing.is_closed = false) :
    pm.open_position pair_name asset1 asset2 quantity1 quantity2
      entry_zscore entry_price1 entry_price2 = (pm, existing) := by
  simp [PositionManager.open_position, hget, hopen]

/-- C5 witness: a second `open_position` on the ledger `pmOpenI` (which
holds the open position `posLedgerI`) with different quantities and prices
returns the original position and the unchanged ledger. -/
theorem C5_open_position_refuses_witness :
    pmOpenI.open_position "pair" "a1" "a2" 5 6 7 8 9 = (pmOpenI, posLedgerI) :=
  C5_open_position_refuses pmOpenI "pair" "a1" "a2" 5 6 7 8 9 posLedgerI
    (by decide) rfl

/-- C7 counterexample: `calculate_position_size` is not validated and not
sign-protected. With the source's default configuration (fraction 0.1, cap
0.2 — both inside (0,1]) a negative account balance yields the negative
size -200; and a configuration with fraction 5 and cap 7, far outside
(0,1], is accepted without any error and used as-is. -/
theorem C7_counterexample :
    RiskManager.calculate_position_size
        { max_position_size := 1/5, position_size := 1/10, stop_loss_z := 3 }
        (-1000) none = -200 ∧
    ((-200 : ℚ) < 0) ∧
    RiskManager.calculate_position_size
        { max_position_size := 7, position_size := 5, stop_loss_z := 3 }
        100 none = 500 := by
  refine ⟨?_, by norm_num, ?_⟩ <;>
    norm_num [RiskManager.calculate_position_size, min_def]

/-- C7 (amended): `calculate_position_size` returns
`min(balance*fraction, balance*max_position_fraction)` (the fraction
defaulting to the configured `position_size`); no validation of the
fractions is performed anywhere, and the result is guaranteed nonnegative
only under the additional assumptions that the balance and both fractions
are nonnegative. -/
theorem C7_position_size_characterization (rm : RiskManager) (balance : ℚ)
    (base : Option ℚ) (hbal : 0 ≤ balance)
    (hfrac : 0 ≤ base.getD rm.position_size)
    (hmax : 0 ≤ rm.max_position_size) :
    rm.calculate_position_size balance base
      = min (balance * base.getD rm.position_size)
            (balance * rm.max_position_size) ∧
    0 ≤ rm.calculate_position_size balance base := by
  refine ⟨rfl, ?_⟩
  exact le_min (mul_nonneg hbal hfrac) (mul_nonneg hbal hmax)

/-- C7 witness: the characterization at balance 100 with fraction 1 and
cap 2. -/
theorem C7_position_size_characterization_witness :
    RiskManager.calculate_position_size
        { max_position_size := 2, position_size := 1, stop_loss_z := 3 }
        100 none
      = min ((100 : ℚ) * 1) (100 * 2) ∧
    0 ≤ RiskManager.calculate_position_size
        { max_position_size := 2, position_size := 1, stop_loss_z := 3 }
        100 none :=
  C7_position_size_characterization
    { max_position_size := 2, position_size := 1, stop_loss_z := 3 }
    100 none (by norm_num) (by norm_num) (by norm_num)

/-- C8: `Position.close` sets `pnl` to exactly
`(exit1-entry1)*qty1 + (exit2-entry2)*qty2` and marks the position closed;
a freshly constructed position carries `pnl = 0` (the constructor default —
pnl is never computed before close); and at the spec's concrete input
(quantities 1 and -2, entries 100 and 50, exits 110 and 55) the realized
pnl is 0. -/
theorem C8_realized_pnl (p : Position) (e1 e2 : ℚ) :
    (p.close e1 e2).pnl
        = (e1 - p.entry_price1) * p.quantity1
          + (e2 - p.entry_price2) * p.quantity2 ∧
    (p.close e1 e2).is_closed = true ∧
    ({ pair_name := p.pair_name, asset1 := p.asset1, asset2 := p.asset2,
       quantity1 := p.quantity1, quantity2 := p.quantity2,
       entry_zscore := p.entry_zscore, entry_price1 := p.entry_price1,
       entry_price2 := p.entry_price2 } : Position).pnl = 0 ∧
    (Position.close
        { pair_name := "pair", asset1 := "a1", asset2 := "a2",
          quantity1 := 1, quantity2 := -2, entry_zscore := 2,
          entry_price1 := 100, entry_price2 := 50 } 110 55).pnl = 0 := by
  exact ⟨rfl, rfl, rfl, by norm_num [Position.close]⟩

/-- C10: closing a pair that was never recorded in the ledger returns
`None` and leaves the ledger completely unchanged. -/
theorem C10_close_position_unknown_pair (pm : PositionManager)
    (pair_name : String) (exit_price1 exit_price2 : ℚ)
    (h : pm.get_position pair_name = none) :
    pm.close_position pair_name exit_price1 exit_price2 = (pm, none) := by
  simp [PositionManager.close_position, h]

/-- C10 witness: closing on an empty ledger, and on a ledger that holds a
different pair, both return `None` with the ledger untouched. -/
theorem C10_close_position_unknown_pair_witness :
    PositionManager.close_position {} "never_opened" 1 2
      = (({} : PositionManager), none) :=
  C10_close_position_unknown_pair {} "never_opened" 1 2 rfl

/-- An execution engine whose risk fractions are 1, so opening notionals
are never scaled (keeps the sample arithmetic integral). -/
def engI : ExecutionEngine :=
  { risk_manager := { max_position_size := 1, position_size := 1,
                      stop_loss_z := 3 } }

/-- A concrete opening signal: sell the spread, 1 unit of asset1 against
-2 units of asset2, at z = 3. -/
def sigI : TradeSignal := ⟨"sell_spread", 1, -2, 3⟩

/-- A concrete exchange fill response. -/
def fillI : Fill := ⟨some "ex1", some 1, some 99⟩

/-- C2 counterexample: when exactly one leg returns a fill result, the
failure payload of `execute_signal` is `{'success': False, 'order_id': …,
'error': '订单执行失败'}` — identical whether it was leg 1 or leg 2 that
filled, and carrying no filled quantity or price at all, so it does not
report which leg filled or that leg's fill details. (Those details are
recorded only on the stored `Order`, as the third conjunct shows for the
leg-2 fill.) -/
theorem C2_counterexample :
    (engI.execute_signal sigI "a1" "a2" "pair" 1000 (some 100) (some 50)
        (some fillI) none).2
      = some (.failure "order_1" "订单执行失败") ∧
    (engI.execute_signal sigI "a1" "a2" "pair" 1000 (some 100) (some 50)
        none (some fillI)).2
      = some (.failure "order_1" "订单执行失败") ∧
    ((engI.execute_signal sigI "a1" "a2" "pair" 1000 (some 100) (some 50)
        none (some fillI)).1.order_manager.get_order "order_1").map
          (fun o => (o.status, o.exchange_order_id2, o.filled_quantity2,
                     o.filled_price2))
      = some (OrderStatus.REJECTED, some "ex1", 1, 99) := by
  decide

/-- C2 (amended): for a non-hold signal with both tickers available, when
exactly one leg returns a fill result the position ledger is left
completely unchanged (no position opened or closed) and the result is the
failure payload carrying only the order id and the fixed error string
'订单执行失败' — the same payload for a leg-1 fill as for a leg-2 fill, so
the payload does not report which leg filled; the filled leg's quantity and
price are recorded only on the `Order` stored in the order ledger. Both
legs' responses are consumed regardless of the other leg's outcome. -/
theorem C2_asymmetric_fill_payload (eng : ExecutionEngine)
    (signal : TradeSignal) (asset1 asset2 pair_name : String)
    (account_balance price1 price2 : ℚ) (r1 r2 : Fill)
    (hs : ¬ signal.signal = "hold") :
    (eng.execute_signal signal asset1 asset2 pair_name account_balance
        (some price1) (some price2) (some r1) none).1.position_manager
      = eng.position_manager ∧
    (eng.execute_signal signal asset1 asset2 pair_name account_balance
        (some price1) (some price2) none (some r2)).1.position_manager
      = eng.position_manager ∧
    (eng.execute_signal signal asset1 asset2 pair_name account_balance
        (some price1) (some price2) (some r1) none).2
      = some (.failure
          ("order_" ++ toString (eng.order_manager.order_counter + 1))
          "订单执行失败") ∧
    (eng.execute_signal signal asset1 asset2 pair_name account_balance
        (some price1) (some price2) (some r1) none).2
      = (eng.execute_signal signal asset1 asset2 pair_name account_balance
          (some price1) (some price2) none (some r2)).2 := by
  unfold ExecutionEngine.execute_signal
  simp only [if_neg hs]
  refine ⟨?_, ?_, ?_, ?_⟩ <;> trivial

/-- C2 witness: the amended theorem at the concrete asymmetric-fill input
(engine `engI`, opening signal `sigI`, leg fill `fillI`). -/
theorem C2_asymmetric_fill_payload_witness :
    (engI.execute_signal sigI "a1" "a2" "pair" 1000 (some 100) (some 50)
        (some fillI) none).1.position_manager = engI.position_manager ∧
    (engI.execute_signal sigI "a1" "a2" "pair" 1000 (some 100) (some 50)
        none (some fillI)).1.position_manager = engI.position_manager ∧
    (engI.execute_signal sigI "a1" "a2" "pair" 1000 (some 100) (some 50)
        (some fillI) none).2
      = some (.failure
          ("order_" ++ toString (engI.order_manager.order_counter + 1))
          "订单执行失败") ∧
    (engI.execute_signal sigI "a1" "a2" "pair" 1000 (some 100) (some 50)
        (some fillI) none).2
      = (engI.execute_signal sigI "a1" "a2" "pair" 1000 (some 100)
          (some 50) none (some fillI)).2 :=
  C2_asymmetric_fill_payload engI sigI "a1" "a2" "pair" 1000 100 50
    fillI fillI (by decide)

/-- Both branches of `zscoreFull` preserve the series length. -/
theorem zscoreFull_length (series : List ℝ) :
    (zscoreFull series).length = series.length := by
  by_cases h : npStd series = 0 <;> simp [zscoreFull, h]

/-- The rolling branch preserves the series length. -/
theorem zscoreRolling_length (series : List ℝ) (w : ℕ) :
    (zscoreRolling series w).length = series.length := by
  simp [zscoreRolling]

/-- Branch selection of `calculate_zscore`: a `None` window, or a window at
least the series length, selects the full-series branch. -/
theorem calculate_zscore_eq_full (series : List ℝ) (window : Option ℕ)
    (h0 : series.length ≠ 0)
    (hw : window = none ∨ ∃ w, window = some w ∧ series.length ≤ w) :
    calculate_zscore series window = zscoreFull series := by
  unfold calculate_zscore
  rw [if_neg h0]
  rcases hw with rfl | ⟨w, rfl, hle⟩
  · rfl
  · show (if series.length ≤ w then zscoreFull series
          else zscoreRolling series w) = zscoreFull series
    rw [if_pos hle]

/-- C9: `calculate_zscore` is total and never divides by zero: the output
always has the length of the input; with `window = None` or
`window ≥ len(series)` it standardizes by the full-series mean and standard
deviation, returning all zeros when that standard deviation is 0; and in
the rolling branch any point whose window standard deviation is 0 is
assigned z-score 0. -/
theorem C9_calculate_zscore_safe :
    (∀ (series : List ℝ) (window : Option ℕ),
        (calculate_zscore series window).length = series.length) ∧
    (∀ (series : List ℝ) (window : Option ℕ),
        (window = none ∨ ∃ w, window = some w ∧ series.length ≤ w) →
        npStd series = 0 →
        calculate_zscore series window = List.replicate series.length 0) ∧
    (∀ (series : List ℝ) (window : Option ℕ),
        (window = none ∨ ∃ w, window = some w ∧ series.length ≤ w) →
        npStd series ≠ 0 →
        calculate_zscore series window
          = series.map fun x => (x - npMean series) / npStd series) ∧
    (∀ (series : List ℝ) (w i : ℕ),
        w ≤ i → i < series.length → w < series.length →
        npStd ((series.drop (i - w)).take w) = 0 →
        (calculate_zscore series (some w))[i]? = some 0) := by
  refine ⟨?_, ?_, ?_, ?_⟩
  · intro series window
    unfold calculate_zscore
    split
    · next h => simp [List.length_eq_zero.mp h]
    · next h =>
      cases window with
      | none => exact zscoreFull_length series
      | some w =>
        by_cases hw : series.length ≤ w
        · simp [hw, zscoreFull_length]
        · simp [hw, zscoreRolling_length]
  · intro series window hw hstd
    by_cases h0 : series.length = 0
    · obtain rfl := List.length_eq_zero.mp h0
      simp [calculate_zscore]
    · rw [calculate_zscore_eq_full series window h0 hw]
      simp [zscoreFull, hstd]
  · intro series window hw hstd
    by_cases h0 : series.length = 0
    · obtain rfl := List.length_eq_zero.mp h0
      simp [calculate_zscore]
    · rw [calculate_zscore_eq_full series window h0 hw]
      simp [zscoreFull, hstd]
  · intro series w i hwi hi hwlen hstd
    have h0 : ¬ series.length = 0 := by omega
    have hle : ¬ series.length ≤ w := by omega
    unfold calculate_zscore
    rw [if_neg h0]
    show (if series.length ≤ w then zscoreFull series
          else zscoreRolling series w)[i]? = some 0
    rw [if_neg hle]
    unfold zscoreRolling
    rw [List.getElem?_map, List.getElem?_range hi]
    simp [Nat.not_lt.mpr hwi, hstd]

/-- C9 witness: the constant series `[2,2,2]` (full-series std 0) maps to
all zeros, and in the rolling branch of `[1,1,5]` with window 2 the point
at index 2, whose window `[1,1]` has std 0, is assigned 0. -/
theorem C9_calculate_zscore_safe_witness :
    calculate_zscore [(2:ℝ), 2, 2] none = [0, 0, 0] ∧
    (calculate_zscore [(1:ℝ), 1, 5] (some 2))[2]? = some 0 := by
  have hm3 : npMean [(2:ℝ), 2, 2] = 2 := by
    norm_num [npMean]
  have hmap3 : (List.map (fun x => (x - npMean [(2:ℝ), 2, 2]) ^ 2)
      [(2:ℝ), 2, 2]) = [0, 0, 0] := by
    norm_num [hm3]
  have hzero3 : npMean [(0:ℝ), 0, 0] = 0 := by
    norm_num [npMean]
  have hstd3 : npStd [(2:ℝ), 2, 2] = 0 := by
    unfold npStd
    rw [hmap3, hzero3, Real.sqrt_zero]
  have hdrop : ((([(1:ℝ), 1, 5]).drop (2 - 2)).take 2) = [1, 1] := rfl
  have hm2 : npMean [(1:ℝ), 1] = 1 := by
    norm_num [npMean]
  have hmap2 : (List.map (fun x => (x - npMean [(1:ℝ), 1]) ^ 2)
      [(1:ℝ), 1]) = [0, 0] := by
    norm_num [hm2]
  have hzero2 : npMean [(0:ℝ), 0] = 0 := by
    norm_num [npMean]
  have hstd2 : npStd ((([(1:ℝ), 1, 5]).drop (2 - 2)).take 2) = 0 := by
    rw [hdrop]
    unfold npStd
    rw [hmap2, hzero2, Real.sqrt_zero]
  constructor
  · have h := C9_calculate_zscore_safe.2.1 [(2:ℝ), 2, 2] none
      (Or.inl rfl) hstd3
    simpa using h
  · exact C9_calculate_zscore_safe.2.2.2 [(1:ℝ), 1, 5] 2 2 (by norm_num)
      (by norm_num) (by norm_num) hstd2
